import Mathlib

/-!
Verification of the dataset partitioning and label-encoding subsystem of the
mask image-classification repository (module `dataset.py`).

The Python module is shallowly embedded: each class method becomes a Lean
function, directory listings become `List (String × List String)` values
(profile directory name paired with the file names inside it), the mutable
class-level sample lists become an explicit `SharedLists` state threaded
through the scan, and calls into the platform random facility
(`random.choices`, `torch.utils.data.random_split`) are parameterized by the
values those draws produce.  Python exceptions are modeled with `Except`.
-/

/-- Python `str.lower`, restricted to ASCII letters (the corpus convention
only uses ASCII directory names). Mirrors `value.lower()` in
`GenderLabels.from_str`. -/
def pyLower (s : String) : String := ⟨s.data.map Char.toLower⟩

/-- Split a character list at every occurrence of `sep`, as Python
`str.split(sep)` does: `"a_b".split("_") == ["a","b"]`, `"".split("_") == [""]`. -/
def splitOnChar (sep : Char) : List Char → List (List Char)
  | [] => [[]]
  | c :: cs =>
    let rest := splitOnChar sep cs
    if c = sep then [] :: rest
    else
      match rest with
      | [] => [[c]]
      | r :: rs => (c :: r) :: rs

/-- Python `profile.split("_")` (used to unpack `id, gender, race, age`). -/
def pySplitUnderscore (s : String) : List String :=
  (splitOnChar '_' s.data).map (fun l => ⟨l⟩)

/-- Python `str.strip()` on ASCII whitespace, as performed by `int(str)`
before parsing the digits. -/
def pyStrip (s : List Char) : List Char :=
  ((s.dropWhile Char.isWhitespace).reverse.dropWhile Char.isWhitespace).reverse

/-- Value of a list of ASCII decimal digits, most significant first. -/
def digitsToNat (l : List Char) : Nat :=
  l.foldl (fun acc c => acc * 10 + (c.toNat - 48)) 0

/-- Python `int(str)`: optional surrounding whitespace, an optional sign,
then one or more ASCII decimal digits.  Returns `none` exactly when Python
`int(...)` would raise `ValueError` (underscore digit grouping and non-ASCII
digits are outside the corpus convention and not modeled). -/
def parsePyInt (s : String) : Option Int :=
  let t := pyStrip s.data
  let signDigits : Bool × List Char :=
    match t with
    | '-' :: rest => (true, rest)
    | '+' :: rest => (false, rest)
    | _ => (false, t)
  let neg := signDigits.1
  let ds := signDigits.2
  if ds ≠ [] ∧ ds.all Char.isDigit then
    some (if neg then -(digitsToNat ds : Int) else (digitsToNat ds : Int))
  else
    none

/-- Python `os.path.splitext(file_name)[0]`: the file name up to its last
dot, unless every character before that dot is itself a dot (leading-dot
hidden files keep their full name). Our inputs are bare file names, so the
directory-separator handling in `splitext` is vacuous. -/
def lastDotIdx : List Char → Option Nat
  | [] => none
  | c :: cs =>
    match lastDotIdx cs with
    | some i => some (i + 1)
    | none => if c = '.' then some 0 else none

def splitextStem (fileName : String) : String :=
  match lastDotIdx fileName.data with
  | none => fileName
  | some d =>
    if (fileName.data.take d).any (fun c => c ≠ '.') then ⟨fileName.data.take d⟩
    else fileName

/-- Python `profile.startswith(".")`. -/
def startsWithDot (s : String) : Bool :=
  match s.data with
  | '.' :: _ => true
  | _ => false

namespace MaskLabels

def MASK : Nat := 0
def INCORRECT : Nat := 1
def NORMAL : Nat := 2

end MaskLabels

namespace GenderLabels

def MALE : Nat := 0
def FEMALE : Nat := 1

end GenderLabels

namespace AgeLabels

def YOUNG : Nat := 0
def MIDDLE : Nat := 1
def OLD : Nat := 2

end AgeLabels

/-- Python exceptions raised during dataset construction. -/
inductive ScanError : Type
  /-- `ValueError("Gender value should be either 'male' or 'female', ...")`,
  carrying the lowercased gender string. -/
  | invalidGender (value : String)
  /-- `ValueError("Age value should be numeric, ...")`. -/
  | invalidAge (value : String)
  /-- `ValueError` from unpacking `profile.split("_")` into four names. -/
  | badProfile (profile : String)
deriving DecidableEq

/-- `GenderLabels.from_str`: lowercase, then match against
`"male"`/`"female"`, raising `ValueError` otherwise. -/
def GenderLabels.from_str (value : String) : Except ScanError Nat :=
  let v := pyLower value
  if v = "male" then .ok GenderLabels.MALE
  else if v = "female" then .ok GenderLabels.FEMALE
  else .error (.invalidGender v)

/-- The age bracketing performed by `AgeLabels.from_number` after the
successful `int(value)` conversion. -/
def ageBracketOfInt (n : Int) : Nat :=
  if n < 30 then AgeLabels.YOUNG
  else if n < 60 then AgeLabels.MIDDLE
  else AgeLabels.OLD

/-- `AgeLabels.from_number`: `int(value)` (raising `ValueError` when not
parseable) followed by the three-way bracketing. -/
def AgeLabels.from_number (value : String) : Except ScanError Nat :=
  match parsePyInt value with
  | none => .error (.invalidAge value)
  | some n => .ok (ageBracketOfInt n)

/-- The `_file_names` table of `MaskBaseDataset`: recognized filename stems
and their mask labels. -/
def fileNames : List (String × Nat) :=
  [("mask1", MaskLabels.MASK), ("mask2", MaskLabels.MASK), ("mask3", MaskLabels.MASK),
   ("mask4", MaskLabels.MASK), ("mask5", MaskLabels.MASK),
   ("incorrect_mask", MaskLabels.INCORRECT), ("normal", MaskLabels.NORMAL)]

/-- Python `_file_name in self._file_names` / `self._file_names[_file_name]`
combined: `none` when the stem is unrecognized. -/
def fileNamesLookup (stem : String) : Option Nat :=
  (fileNames.find? (fun kv => kv.1 == stem)).map Prod.snd


/-- A directory listing: each entry is a subject directory name paired with
the file names inside it (the result of the two nested `os.listdir` calls). -/
abbrev DirListing := List (String × List String)

/-- The label derivation shared by every scan loop:
`id, gender, race, age = profile.split("_")` (raising `ValueError` when the
unpacking does not produce exactly four fields), then
`GenderLabels.from_str(gender)` and `AgeLabels.from_number(age)`. -/
def parseProfileLabels (profile : String) : Except ScanError (Nat × Nat) :=
  match pySplitUnderscore profile with
  | [_id, gender, _race, age] =>
    match GenderLabels.from_str gender with
    | .error e => .error e
    | .ok gender_label =>
      match AgeLabels.from_number age with
      | .error e => .error e
      | .ok age_label => .ok (gender_label, age_label)
  | _ => .error (.badProfile profile)

/-- The class-level sample lists of `MaskBaseDataset` (`image_paths`,
`mask_labels`, `gender_labels`, `age_labels`).  An `image_paths` entry is the
`(profile, file_name)` pair joined by `os.path.join(self.data_dir, profile,
file_name)`; the constant `data_dir` prefix is left implicit. -/
structure SharedLists where
  image_paths : List (String × String)
  mask_labels : List Nat
  gender_labels : List Nat
  age_labels : List Nat
deriving DecidableEq

/-- The state of the class-level lists at class-definition time: four empty
lists. -/
def SharedLists.empty : SharedLists := ⟨[], [], [], []⟩

/-- Field-wise list append: the effect of one scan's `append` calls on top of
whatever the lists already contained. -/
def SharedLists.append (s d : SharedLists) : SharedLists :=
  ⟨s.image_paths ++ d.image_paths, s.mask_labels ++ d.mask_labels,
   s.gender_labels ++ d.gender_labels, s.age_labels ++ d.age_labels⟩

/-- `MaskBaseDataset.__len__`: `len(self.image_paths)`. -/
def sampleCount (s : SharedLists) : Nat := s.image_paths.length

namespace MaskBaseDataset

/-- `MaskBaseDataset.encode_multi_class`: `mask_label * 6 + gender_label * 3
+ age_label`. -/
def encode_multi_class (mask_label gender_label age_label : Nat) : Nat :=
  mask_label * 6 + gender_label * 3 + age_label

/-- `MaskBaseDataset.decode_multi_class`: floor-division/modulo chain. -/
def decode_multi_class (multi_class_label : Nat) : Nat × Nat × Nat :=
  (multi_class_label / 6 % 3, multi_class_label / 3 % 2, multi_class_label % 3)

/-- Body of the inner loop of `MaskBaseDataset.setup` for one file of one
profile directory: skip unrecognized stems, otherwise unpack the profile
name, parse gender and age (either may raise), and append one sample to the
shared lists. -/
def processFile (profile : String) (st : SharedLists) (file_name : String) :
    Except ScanError SharedLists :=
  match fileNamesLookup (splitextStem file_name) with
  | none => .ok st
  | some mask_label =>
    match parseProfileLabels profile with
    | .error e => .error e
    | .ok (gender_label, age_label) =>
      .ok ⟨st.image_paths ++ [(profile, file_name)],
           st.mask_labels ++ [mask_label],
           st.gender_labels ++ [gender_label],
           st.age_labels ++ [age_label]⟩

/-- The inner `for file_name in os.listdir(img_folder)` loop. -/
def processFiles (profile : String) (st : SharedLists) :
    List String → Except ScanError SharedLists
  | [] => .ok st
  | f :: fs =>
    match processFile profile st f with
    | .error e => .error e
    | .ok st2 => processFiles profile st2 fs

/-- One iteration of the outer `for profile in profiles` loop, including the
hidden-entry skip. -/
def processProfile (st : SharedLists) (p : String × List String) :
    Except ScanError SharedLists :=
  if startsWithDot p.1 then .ok st else processFiles p.1 st p.2

/-- `MaskBaseDataset.setup`: the full corpus scan, threaded through the
class-level lists it appends to. -/
def setup (st : SharedLists) : DirListing → Except ScanError SharedLists
  | [] => .ok st
  | p :: ps =>
    match processProfile st p with
    | .error e => .error e
    | .ok st2 => setup st2 ps

/-- `n_val = int(len(self) * self.val_ratio)` (`val_ratio` is modeled as an
exact rational; the product is nonnegative, so Python `int` truncation is
the floor). -/
def nVal (total : Nat) (r : ℚ) : Nat := (⌊(total : ℚ) * r⌋).toNat

/-- `MaskBaseDataset.split_dataset`, with `torch.utils.data.random_split`
modeled by its documented semantics: draw a random permutation `perm` of all
indices, give the first `n_train` of them to the train subset and the rest
to the val subset. -/
def split_dataset (total : Nat) (r : ℚ) (perm : List Nat) :
    List Nat × List Nat :=
  let n_val := nVal total r
  let n_train := total - n_val
  (perm.take n_train, perm.drop n_train)

end MaskBaseDataset

/-- The assertion failure of `__getitem__` when `self.transform is None`,
and the `IndexError` that list indexing would raise out of range. -/
inductive GetItemError : Type
  | transformNotSet
  | indexOutOfRange
deriving DecidableEq

/-- A Dataset View: the scanned sample lists plus the single mutable
`transform` field (initialized to `None` in `__init__`). -/
structure ViewState (I T : Type) where
  lists : SharedLists
  transform : Option (I → T)

/-- `MaskBaseDataset.set_transform`. -/
def set_transform {I T : Type} (st : ViewState I T) (t : I → T) : ViewState I T :=
  { st with transform := some t }

/-- `MaskBaseDataset.__getitem__`: assert a transform is bound, read the
image (`load` stands for `Image.open`), fetch the three labels, encode them,
and return the transformed image with the encoded label. -/
def getItem {I T : Type} (load : String × String → I) (st : ViewState I T)
    (index : Nat) : Except GetItemError (T × Nat) :=
  match st.transform with
  | none => .error .transformNotSet
  | some t =>
    match st.lists.image_paths[index]?, st.lists.mask_labels[index]?,
          st.lists.gender_labels[index]?, st.lists.age_labels[index]? with
    | some p, some m, some g, some a =>
      .ok (t (load p), MaskBaseDataset.encode_multi_class m g a)
    | _, _, _, _ => .error .indexOutOfRange

namespace MaskLabelDataset

/-- The label computed by `MaskLabelDataset.__getitem__`:
`multi_class_label = gender_label * 3 + age_label` (the gender-age variant,
`num_classes = 2 * 3`). -/
def multi_class_label (gender_label age_label : Nat) : Nat :=
  gender_label * 3 + age_label

end MaskLabelDataset

namespace MaskSplitByProfileDataset

/-- `MaskSplitByProfileDataset._split_profile`.  The call
`random.choices(range(length), k=n_val)` draws `n_val` values below `length`
with replacement; `draws` is the list of values it returned.  `set(...)`
removes duplicates (modeled by `List.dedup`), and the train side is the set
subtraction `set(range(length)) - val_indices`. -/
def splitProfile (length : Nat) (draws : List Nat) : List Nat × List Nat :=
  let val_indices := draws.dedup
  let train_indices := (List.range length).filter (fun i => decide (i ∉ val_indices))
  (train_indices, val_indices)

/-- The per-instance state built by `MaskSplitByProfileDataset.setup`: the
shared sample lists plus `self.indices["train"]`, `self.indices["val"]`, and
the running counter `cnt`. -/
structure SBPState where
  image_paths : List (String × String)
  mask_labels : List Nat
  gender_labels : List Nat
  age_labels : List Nat
  trainIndices : List Nat
  valIndices : List Nat
  cnt : Nat
deriving DecidableEq

def SBPState.init : SBPState := ⟨[], [], [], [], [], [], 0⟩

/-- The two keys of `split_profiles`, iterated in dict insertion order
(`"train"` first, then `"val"`). -/
inductive Phase : Type
  | train
  | val
deriving DecidableEq

/-- The innermost body of `MaskSplitByProfileDataset.setup` for one file:
skip unrecognized stems; otherwise parse the profile fields, append one
sample to the shared lists, record `cnt` under the current phase, and
increment `cnt`. -/
def processFile (phase : Phase) (profile : String) (st : SBPState)
    (file_name : String) : Except ScanError SBPState :=
  match fileNamesLookup (splitextStem file_name) with
  | none => .ok st
  | some mask_label =>
    match parseProfileLabels profile with
    | .error e => .error e
    | .ok (gender_label, age_label) =>
      .ok ⟨st.image_paths ++ [(profile, file_name)],
           st.mask_labels ++ [mask_label],
           st.gender_labels ++ [gender_label],
           st.age_labels ++ [age_label],
           (if phase = Phase.train then st.trainIndices ++ [st.cnt] else st.trainIndices),
           (if phase = Phase.val then st.valIndices ++ [st.cnt] else st.valIndices),
           st.cnt + 1⟩

/-- The `for file_name in os.listdir(img_folder)` loop of one subject. -/
def processFiles (phase : Phase) (profile : String) (st : SBPState) :
    List String → Except ScanError SBPState
  | [] => .ok st
  | f :: fs =>
    match processFile phase profile st f with
    | .error e => .error e
    | .ok st2 => processFiles phase profile st2 fs

/-- One iteration of `for _idx in indices`: `profile = profiles[_idx]`, then
the file loop over that subject's directory. -/
def processSubject (profiles : DirListing) (phase : Phase) (st : SBPState)
    (idx : Nat) : Except ScanError SBPState :=
  let p := profiles.getD idx ("", [])
  processFiles phase p.1 st p.2

/-- The loop over one phase's subject-index set.  Python iterates the set in
an unspecified order, so the enumeration order is a parameter. -/
def processPhase (profiles : DirListing) (phase : Phase) (st : SBPState) :
    List Nat → Except ScanError SBPState
  | [] => .ok st
  | i :: is_ =>
    match processSubject profiles phase st i with
    | .error e => .error e
    | .ok st2 => processPhase profiles phase st2 is_

/-- The non-hidden profile listing (`profiles = [p for p in
os.listdir(self.data_dir) if not p.startswith(".")]`). -/
def visibleProfiles (dir : DirListing) : DirListing :=
  dir.filter (fun p => !(startsWithDot p.1))

/-- `MaskSplitByProfileDataset.setup`, parameterized by the enumeration
orders `tIdxs` and `vIdxs` in which Python iterates the two sets returned by
`_split_profile` (phase `"train"` is processed first, then `"val"`). -/
def setup (dir : DirListing) (tIdxs vIdxs : List Nat) : Except ScanError SBPState :=
  let profiles := visibleProfiles dir
  match processPhase profiles Phase.train SBPState.init tIdxs with
  | .error e => .error e
  | .ok st1 => processPhase profiles Phase.val st1 vIdxs

end MaskSplitByProfileDataset

namespace EvalDataset

/-- The file-inclusion decision of `EvalDataset.setup` (and identically
`ModelEvalDataset.setup`), one recognized file at a time.  Each file comes
paired with the boolean its Bernoulli draw produced: `is_in` is the
one-element list returned by
`random.choices([True, False], weights=[self.data_ratio, 1 - self.data_ratio])`,
and `if not is_in: continue` tests Python truthiness of that list (empty vs
non-empty), not the drawn boolean.  Returns the file names appended to
`image_paths`. -/
def keptFiles : List (String × Bool) → List String
  | [] => []
  | fd :: rest =>
    if (fileNamesLookup (splitextStem fd.1)).isNone then keptFiles rest
    else
      let is_in : List Bool := [fd.2]
      if is_in.isEmpty then keptFiles rest
      else fd.1 :: keptFiles rest

/-- What the spec's words describe for the sampling scan: a per-file
Bernoulli draw, keeping the file exactly when its draw came out `True`.
Modelled from the spec for comparison with `keptFiles` above. -/
def keptFilesSpec : List (String × Bool) → List String
  | [] => []
  | fd :: rest =>
    if (fileNamesLookup (splitextStem fd.1)).isNone then keptFilesSpec rest
    else if fd.2 then fd.1 :: keptFilesSpec rest
    else keptFilesSpec rest

end EvalDataset

namespace MaskSplitByProfileDataset

/-- The subject-directory names selected by a list of subject indices
(`profiles[_idx]` for each `_idx`). -/
def namesAt (profiles : DirListing) (idxs : List Nat) : List String :=
  idxs.map (fun i => (profiles.getD i ("", [])).1)

/-- Invariant maintained by `MaskSplitByProfileDataset.setup`: `cnt` counts
the appended samples, every index recorded under `"train"` points at a
sample of a train-phase subject, every index recorded under `"val"` points
at a sample of a val-phase subject, and every sample index is recorded under
some phase. -/
def SBPInv (tNames vNames : List String) (s : SBPState) : Prop :=
  s.cnt = s.image_paths.length ∧
  (∀ c ∈ s.trainIndices, ∃ pr, s.image_paths[c]? = some pr ∧ pr.1 ∈ tNames) ∧
  (∀ c ∈ s.valIndices, ∃ pr, s.image_paths[c]? = some pr ∧ pr.1 ∈ vNames) ∧
  (∀ c, c < s.cnt → c ∈ s.trainIndices ∨ c ∈ s.valIndices)

end MaskSplitByProfileDataset

/-! ## Theorems -/

/-- C1: decoding the encoded full-taxonomy label returns the original triple
for every valid `(mask, gender, age)` with mask in `{0,1,2}`, gender in
`{0,1}`, age in `{0,1,2}`. -/
theorem encode_decode_roundtrip :
    ∀ mask_label < 3, ∀ gender_label < 2, ∀ age_label < 3,
      MaskBaseDataset.decode_multi_class
          (MaskBaseDataset.encode_multi_class mask_label gender_label age_label) =
        (mask_label, gender_label, age_label) := by
  decide

/-- Witness for C1 at the triple `(2, 1, 2)`. -/
theorem encode_decode_roundtrip_witness :
    (2 : Nat) < 3 ∧
      MaskBaseDataset.decode_multi_class (MaskBaseDataset.encode_multi_class 2 1 2) =
        (2, 1, 2) :=
  ⟨by decide, encode_decode_roundtrip 2 (by decide) 1 (by decide) 2 (by decide)⟩

/-- C6: the full-taxonomy encoding stays in `[0, 18)` and reaches every value
in that range; the gender-age variant `gender*3 + age` stays in `[0, 6)` and
reaches every value in that range. -/
theorem encode_range_and_surjectivity :
    (∀ mask_label < 3, ∀ gender_label < 2, ∀ age_label < 3,
      MaskBaseDataset.encode_multi_class mask_label gender_label age_label < 18) ∧
    (∀ k < 18, ∃ mask_label < 3, ∃ gender_label < 2, ∃ age_label < 3,
      MaskBaseDataset.encode_multi_class mask_label gender_label age_label = k) ∧
    (∀ gender_label < 2, ∀ age_label < 3,
      MaskLabelDataset.multi_class_label gender_label age_label < 6) ∧
    (∀ k < 6, ∃ gender_label < 2, ∃ age_label < 3,
      MaskLabelDataset.multi_class_label gender_label age_label = k) := by
  decide

/-- Witness for C6 at the triple `(2, 1, 2)` and at `k = 17`. -/
theorem encode_range_and_surjectivity_witness :
    MaskBaseDataset.encode_multi_class 2 1 2 < 18 ∧
      (∃ mask_label < 3, ∃ gender_label < 2, ∃ age_label < 3,
        MaskBaseDataset.encode_multi_class mask_label gender_label age_label = 17) :=
  ⟨encode_range_and_surjectivity.1 2 (by decide) 1 (by decide) 2 (by decide),
   encode_range_and_surjectivity.2.1 17 (by decide)⟩

/-- C9: after a successful `int(value)` conversion the bracketing returns
YOUNG below 30, MIDDLE on `[30, 60)`, OLD from 60 on, and every string that
is not parseable as an integer raises the age `ValueError`. -/
theorem age_from_number_spec :
    (∀ n : Int, n < 30 → ageBracketOfInt n = AgeLabels.YOUNG) ∧
    (∀ n : Int, 30 ≤ n → n < 60 → ageBracketOfInt n = AgeLabels.MIDDLE) ∧
    (∀ n : Int, 60 ≤ n → ageBracketOfInt n = AgeLabels.OLD) ∧
    (∀ s : String, parsePyInt s = none →
      AgeLabels.from_number s = .error (.invalidAge s)) ∧
    (∀ s : String, ∀ n : Int, parsePyInt s = some n →
      AgeLabels.from_number s = .ok (ageBracketOfInt n)) := by
  refine ⟨?_, ?_, ?_, ?_, ?_⟩
  · intro n h
    simp [ageBracketOfInt, h]
  · intro n h1 h2
    rw [ageBracketOfInt, if_neg (by omega), if_pos h2]
  · intro n h
    rw [ageBracketOfInt, if_neg (by omega), if_neg (by omega)]
  · intro s h
    simp [AgeLabels.from_number, h]
  · intro s n h
    simp [AgeLabels.from_number, h]

/-- Witness for C9 at ages 25, 45, 70 and at the unparseable string `"abc"`. -/
theorem age_from_number_spec_witness :
    ageBracketOfInt 25 = AgeLabels.YOUNG ∧
      ageBracketOfInt 45 = AgeLabels.MIDDLE ∧
      ageBracketOfInt 70 = AgeLabels.OLD ∧
      AgeLabels.from_number "abc" = .error (.invalidAge "abc") :=
  ⟨age_from_number_spec.1 25 (by decide),
   age_from_number_spec.2.1 45 (by decide) (by decide),
   age_from_number_spec.2.2.1 70 (by decide),
   age_from_number_spec.2.2.2.1 "abc" (by decide)⟩

/-- C5 (code bug): the sampling scan of the evaluation datasets keeps every
recognized file no matter what the Bernoulli draws produced, because
`if not is_in: continue` tests the truthiness of the non-empty one-element
list returned by `random.choices`, never the drawn boolean.  The kept list
is exactly the recognized-stem filter of the directory, for every assignment
of draws. -/
theorem eval_setup_ignores_draws (files : List (String × Bool)) :
    EvalDataset.keptFiles files =
      (files.map Prod.fst).filter
        (fun f => (fileNamesLookup (splitextStem f)).isSome) := by
  induction files with
  | nil => rfl
  | cons fd rest ih =>
    rw [EvalDataset.keptFiles]
    cases h : fileNamesLookup (splitextStem fd.1) with
    | none => simp [h, ih, List.filter_cons]
    | some m => simp [h, ih, List.filter_cons]

/-- C7: `__getitem__` fails with the transform-not-set assertion while
`transform` is still `None`; once a transform is bound via `set_transform`,
it returns the transformed image loaded from the index's path paired with
the encoded full-taxonomy label of that index's sample. -/
theorem getitem_transform_contract {I T : Type} (load : String × String → I)
    (ls : SharedLists) (index : Nat) (t : I → T) (p : String × String)
    (m g a : Nat)
    (hp : ls.image_paths[index]? = some p)
    (hm : ls.mask_labels[index]? = some m)
    (hg : ls.gender_labels[index]? = some g)
    (ha : ls.age_labels[index]? = some a) :
    getItem load (⟨ls, none⟩ : ViewState I T) index = .error .transformNotSet ∧
    getItem load (set_transform (⟨ls, none⟩ : ViewState I T) t) index =
      .ok (t (load p), MaskBaseDataset.encode_multi_class m g a) := by
  constructor
  · rfl
  · simp [getItem, set_transform, hp, hm, hg, ha]

/-- Witness for C7 on a one-sample view with the identity load and
transform. -/
theorem getitem_transform_contract_witness :
    ([(("000_male_Asian_20" : String), ("mask1.jpg" : String))][0]? =
        some ("000_male_Asian_20", "mask1.jpg")) ∧
    getItem (fun p => p)
        (⟨⟨[("000_male_Asian_20", "mask1.jpg")], [0], [0], [0]⟩, none⟩ :
          ViewState (String × String) (String × String)) 0 =
      .error .transformNotSet ∧
    getItem (fun p => p)
        (set_transform
          (⟨⟨[("000_male_Asian_20", "mask1.jpg")], [0], [0], [0]⟩, none⟩ :
            ViewState (String × String) (String × String)) (fun i => i)) 0 =
      .ok (("000_male_Asian_20", "mask1.jpg"),
           MaskBaseDataset.encode_multi_class 0 0 0) :=
  ⟨rfl,
   getitem_transform_contract (fun p => p)
     ⟨[("000_male_Asian_20", "mask1.jpg")], [0], [0], [0]⟩ 0 (fun i => i)
     ("000_male_Asian_20", "mask1.jpg") 0 0 0 rfl rfl rfl rfl⟩

/-- C3: with `torch.utils.data.random_split` modeled as slicing a random
permutation of all indices, the random-sample split produces a val set of
size exactly `floor(total * val_ratio)`, a train set of size `total` minus
that, and the two index lists are disjoint with union a permutation of all
sample indices (each index assigned exactly once). -/
theorem split_dataset_partition (total : Nat) (r : ℚ) (perm : List Nat)
    (hperm : perm.Perm (List.range total)) (_h0 : 0 < r) (h1 : r < 1) :
    (MaskBaseDataset.split_dataset total r perm).2.length =
        MaskBaseDataset.nVal total r ∧
    (MaskBaseDataset.split_dataset total r perm).1.length =
        total - MaskBaseDataset.nVal total r ∧
    List.Disjoint (MaskBaseDataset.split_dataset total r perm).1
        (MaskBaseDataset.split_dataset total r perm).2 ∧
    ((MaskBaseDataset.split_dataset total r perm).1 ++
        (MaskBaseDataset.split_dataset total r perm).2).Perm
      (List.range total) := by
  have hlen : perm.length = total := by simpa using hperm.length_eq
  have hrle : (total : ℚ) * r ≤ (total : ℚ) := by
    calc (total : ℚ) * r ≤ (total : ℚ) * 1 :=
          mul_le_mul_of_nonneg_left (le_of_lt h1) (by positivity)
    _ = (total : ℚ) := mul_one _
  have hfl : ⌊(total : ℚ) * r⌋ ≤ (total : ℤ) := by
    calc ⌊(total : ℚ) * r⌋ ≤ ⌊(total : ℚ)⌋ := Int.floor_le_floor hrle
    _ = (total : ℤ) := Int.floor_natCast total
  have hnv : MaskBaseDataset.nVal total r ≤ total := by
    rw [MaskBaseDataset.nVal]
    exact Int.toNat_le.mpr hfl
  have hnodup : perm.Nodup := (hperm.nodup_iff).mpr (List.nodup_range total)
  refine ⟨?_, ?_, ?_, ?_⟩
  · simp [MaskBaseDataset.split_dataset, hlen, Nat.sub_sub_self hnv]
  · simp [MaskBaseDataset.split_dataset, hlen]
  · exact List.disjoint_take_drop hnodup (le_refl _)
  · rw [MaskBaseDataset.split_dataset]
    simpa [List.take_append_drop] using hperm

/-- Witness for C3 with 5 samples, `val_ratio = 2/5`, and the permutation
`[3, 0, 4, 1, 2]`. -/
theorem split_dataset_partition_witness :
    ([3, 0, 4, 1, 2] : List Nat).Perm (List.range 5) ∧
    ((MaskBaseDataset.split_dataset 5 (2 / 5) [3, 0, 4, 1, 2]).2.length =
        MaskBaseDataset.nVal 5 (2 / 5) ∧
      (MaskBaseDataset.split_dataset 5 (2 / 5) [3, 0, 4, 1, 2]).1.length =
        5 - MaskBaseDataset.nVal 5 (2 / 5) ∧
      List.Disjoint (MaskBaseDataset.split_dataset 5 (2 / 5) [3, 0, 4, 1, 2]).1
        (MaskBaseDataset.split_dataset 5 (2 / 5) [3, 0, 4, 1, 2]).2 ∧
      ((MaskBaseDataset.split_dataset 5 (2 / 5) [3, 0, 4, 1, 2]).1 ++
          (MaskBaseDataset.split_dataset 5 (2 / 5) [3, 0, 4, 1, 2]).2).Perm
        (List.range 5)) :=
  ⟨by decide,
   split_dataset_partition 5 (2 / 5) [3, 0, 4, 1, 2] (by decide) (by norm_num)
     (by norm_num)⟩

/-- C4: the subject-disjoint split chooses VAL subjects as the deduplicated
value set of `floor(num_subjects * val_ratio)` draws with replacement, so
the number of VAL subjects is at most that floor, strictly fewer exactly
when draws collide, and the TRAIN subject set is the complement of the VAL
subject set inside `range(num_subjects)`. -/
theorem split_profile_val_undercount (num_subjects : Nat) (r : ℚ)
    (draws : List Nat)
    (hk : draws.length = MaskBaseDataset.nVal num_subjects r) :
    (MaskSplitByProfileDataset.splitProfile num_subjects draws).2.length ≤
        MaskBaseDataset.nVal num_subjects r ∧
    (¬ draws.Nodup →
      (MaskSplitByProfileDataset.splitProfile num_subjects draws).2.length <
        MaskBaseDataset.nVal num_subjects r) ∧
    (∀ i, i ∈ (MaskSplitByProfileDataset.splitProfile num_subjects draws).1 ↔
      (i < num_subjects ∧
        i ∉ (MaskSplitByProfileDataset.splitProfile num_subjects draws).2)) := by
  have hsub : draws.dedup.length ≤ draws.length :=
    (List.dedup_sublist draws).length_le
  refine ⟨?_, ?_, ?_⟩
  · rw [MaskSplitByProfileDataset.splitProfile, ← hk]
    exact hsub
  · intro hcol
    rw [MaskSplitByProfileDataset.splitProfile, ← hk]
    rcases Nat.lt_or_ge draws.dedup.length draws.length with hlt | hge
    · exact hlt
    · exfalso
      have heq : draws.dedup = draws :=
        (List.dedup_sublist draws).eq_of_length (Nat.le_antisymm hsub hge)
      exact hcol (heq ▸ List.nodup_dedup draws)
  · intro i
    simp [MaskSplitByProfileDataset.splitProfile, List.mem_filter,
      List.mem_range]

/-- Witness for C4 with 5 subjects, `val_ratio = 2/5`, and the colliding
draw list `[1, 1]`. -/
theorem split_profile_val_undercount_witness :
    ([1, 1] : List Nat).length = MaskBaseDataset.nVal 5 (2 / 5) ∧
    ((MaskSplitByProfileDataset.splitProfile 5 [1, 1]).2.length ≤
        MaskBaseDataset.nVal 5 (2 / 5) ∧
      (¬ ([1, 1] : List Nat).Nodup →
        (MaskSplitByProfileDataset.splitProfile 5 [1, 1]).2.length <
          MaskBaseDataset.nVal 5 (2 / 5)) ∧
      (∀ i, i ∈ (MaskSplitByProfileDataset.splitProfile 5 [1, 1]).1 ↔
        (i < 5 ∧ i ∉ (MaskSplitByProfileDataset.splitProfile 5 [1, 1]).2))) :=
  have hk : ([1, 1] : List Nat).length = MaskBaseDataset.nVal 5 (2 / 5) := by
    rw [MaskBaseDataset.nVal]
    have h : ⌊((5 : Nat) : ℚ) * (2 / 5)⌋ = 2 := by norm_num
    rw [h]
    rfl
  ⟨hk, split_profile_val_undercount 5 (2 / 5) [1, 1] hk⟩

/-- Appending the empty shared lists changes nothing. -/
theorem SharedLists.append_empty (s : SharedLists) :
    s.append SharedLists.empty = s := by
  cases s
  simp [SharedLists.append, SharedLists.empty]

/-- Field-wise append of shared lists is associative. -/
theorem SharedLists.append_assoc (a b c : SharedLists) :
    (a.append b).append c = a.append (b.append c) := by
  cases a
  cases b
  cases c
  simp [SharedLists.append]

/-- One file step of the base scan only ever appends: running it from any
starting lists equals running it from empty lists and appending the result. -/
theorem processFile_delta (profile : String) (st : SharedLists) (f : String) :
    MaskBaseDataset.processFile profile st f =
      (MaskBaseDataset.processFile profile SharedLists.empty f).map
        (fun d => st.append d) := by
  rw [MaskBaseDataset.processFile, MaskBaseDataset.processFile]
  cases h1 : fileNamesLookup (splitextStem f) with
  | none => simp [Except.map, SharedLists.append_empty]
  | some m =>
    cases h2 : parseProfileLabels profile with
    | error e => simp [Except.map]
    | ok ga => simp [Except.map, SharedLists.append, SharedLists.empty]

/-- The file loop of the base scan only ever appends. -/
theorem processFiles_delta (profile : String) (fs : List String) :
    ∀ st : SharedLists,
      MaskBaseDataset.processFiles profile st fs =
        (MaskBaseDataset.processFiles profile SharedLists.empty fs).map
          (fun d => st.append d) := by
  induction fs with
  | nil =>
    intro st
    simp [MaskBaseDataset.processFiles, Except.map, SharedLists.append_empty]
  | cons f fs ih =>
    intro st
    rw [MaskBaseDataset.processFiles, MaskBaseDataset.processFiles,
      processFile_delta profile st f]
    cases h : MaskBaseDataset.processFile profile SharedLists.empty f with
    | error e => simp [Except.map]
    | ok d =>
      simp only [Except.map]
      rw [ih (st.append d), ih d]
      cases hx : MaskBaseDataset.processFiles profile SharedLists.empty fs with
      | error e => simp [Except.map]
      | ok x => simp [Except.map, SharedLists.append_assoc]

/-- One profile of the base scan only ever appends. -/
theorem processProfile_delta (st : SharedLists) (p : String × List String) :
    MaskBaseDataset.processProfile st p =
      (MaskBaseDataset.processProfile SharedLists.empty p).map
        (fun d => st.append d) := by
  rw [MaskBaseDataset.processProfile, MaskBaseDataset.processProfile]
  by_cases h : startsWithDot p.1 = true
  · simp [h, Except.map, SharedLists.append_empty]
  · simp only [h]
    simp only [Bool.false_eq_true, if_false]
    exact processFiles_delta p.1 p.2 st

/-- The full base scan only ever appends to whatever the class-level lists
already contained. -/
theorem setup_delta (dir : DirListing) :
    ∀ st : SharedLists,
      MaskBaseDataset.setup st dir =
        (MaskBaseDataset.setup SharedLists.empty dir).map
          (fun d => st.append d) := by
  induction dir with
  | nil =>
    intro st
    simp [MaskBaseDataset.setup, Except.map, SharedLists.append_empty]
  | cons p ps ih =>
    intro st
    rw [MaskBaseDataset.setup, MaskBaseDataset.setup,
      processProfile_delta st p]
    cases h : MaskBaseDataset.processProfile SharedLists.empty p with
    | error e => simp [Except.map]
    | ok d =>
      simp only [Except.map]
      rw [ih (st.append d), ih d]
      cases hx : MaskBaseDataset.setup SharedLists.empty ps with
      | error e => simp [Except.map]
      | ok x => simp [Except.map, SharedLists.append_assoc]

/-- C10: the sample-list fields are class-level state shared across
instances: a second construction over the same corpus starts from the lists
the first construction filled, appends the same samples again, and `__len__`
(`sampleCount`) on the shared lists afterwards reports the combined total of
both scans, double the count of one corpus. -/
theorem class_level_lists_shared (dir : DirListing) (st1 : SharedLists)
    (h : MaskBaseDataset.setup SharedLists.empty dir = .ok st1) :
    MaskBaseDataset.setup st1 dir = .ok (st1.append st1) ∧
    sampleCount (st1.append st1) = sampleCount st1 + sampleCount st1 := by
  constructor
  · rw [setup_delta dir st1, h]
    simp [Except.map]
  · simp [sampleCount, SharedLists.append]

/-- Witness for C10 on a one-subject, two-file corpus. -/
theorem class_level_lists_shared_witness :
    MaskBaseDataset.setup SharedLists.empty
        [("000_male_Asian_20", ["mask1.jpg", "normal.jpg"])] =
      .ok ⟨[("000_male_Asian_20", "mask1.jpg"), ("000_male_Asian_20", "normal.jpg")],
           [0, 2], [0, 0], [0, 0]⟩ ∧
    (MaskBaseDataset.setup
        ⟨[("000_male_Asian_20", "mask1.jpg"), ("000_male_Asian_20", "normal.jpg")],
         [0, 2], [0, 0], [0, 0]⟩
        [("000_male_Asian_20", ["mask1.jpg", "normal.jpg"])] =
      .ok (SharedLists.append
            ⟨[("000_male_Asian_20", "mask1.jpg"), ("000_male_Asian_20", "normal.jpg")],
             [0, 2], [0, 0], [0, 0]⟩
            ⟨[("000_male_Asian_20", "mask1.jpg"), ("000_male_Asian_20", "normal.jpg")],
             [0, 2], [0, 0], [0, 0]⟩) ∧
      sampleCount (SharedLists.append
            ⟨[("000_male_Asian_20", "mask1.jpg"), ("000_male_Asian_20", "normal.jpg")],
             [0, 2], [0, 0], [0, 0]⟩
            ⟨[("000_male_Asian_20", "mask1.jpg"), ("000_male_Asian_20", "normal.jpg")],
             [0, 2], [0, 0], [0, 0]⟩) =
        sampleCount (⟨[("000_male_Asian_20", "mask1.jpg"), ("000_male_Asian_20", "normal.jpg")],
             [0, 2], [0, 0], [0, 0]⟩ : SharedLists) +
        sampleCount (⟨[("000_male_Asian_20", "mask1.jpg"), ("000_male_Asian_20", "normal.jpg")],
             [0, 2], [0, 0], [0, 0]⟩ : SharedLists)) :=
  ⟨rfl,
   class_level_lists_shared [("000_male_Asian_20", ["mask1.jpg", "normal.jpg"])]
     ⟨[("000_male_Asian_20", "mask1.jpg"), ("000_male_Asian_20", "normal.jpg")],
      [0, 2], [0, 0], [0, 0]⟩ rfl⟩

/-- A profile whose gender field parses to neither `"male"` nor `"female"`
makes the file loop raise the gender `ValueError` as soon as it reaches any
recognized file. -/
theorem processFiles_gender_error (name idf gender race age : String)
    (hsplit : pySplitUnderscore name = [idf, gender, race, age])
    (hmale : pyLower gender ≠ "male") (hfemale : pyLower gender ≠ "female") :
    ∀ (fs : List String) (st : SharedLists),
      (∃ f ∈ fs, (fileNamesLookup (splitextStem f)).isSome = true) →
      MaskBaseDataset.processFiles name st fs =
        .error (.invalidGender (pyLower gender)) := by
  have hgender : GenderLabels.from_str gender =
      .error (.invalidGender (pyLower gender)) := by
    rw [GenderLabels.from_str]
    simp [hmale, hfemale]
  have hparse : parseProfileLabels name =
      .error (.invalidGender (pyLower gender)) := by
    rw [parseProfileLabels.eq_def, hsplit]
    simp [hgender]
  intro fs
  induction fs with
  | nil =>
    intro st h
    simp at h
  | cons f fs ih =>
    intro st hex
    cases hl : fileNamesLookup (splitextStem f) with
    | none =>
      have hex2 : ∃ g ∈ fs, (fileNamesLookup (splitextStem g)).isSome = true := by
        rcases hex with ⟨g, hg, hgs⟩
        rcases List.mem_cons.mp hg with rfl | hgf
        · rw [hl] at hgs
          simp at hgs
        · exact ⟨g, hgf, hgs⟩
      rw [MaskBaseDataset.processFiles, MaskBaseDataset.processFile, hl]
      exact ih st hex2
    | some m =>
      rw [MaskBaseDataset.processFiles, MaskBaseDataset.processFile, hl, hparse]

/-- If some profile of the corpus always fails to process, the whole scan
fails, from any starting state of the shared lists. -/
theorem setup_error_of_mem (p : String × List String) (err : ScanError)
    (hp : ∀ st : SharedLists, MaskBaseDataset.processProfile st p = .error err) :
    ∀ (dir : DirListing) (st : SharedLists), p ∈ dir →
      ∃ e, MaskBaseDataset.setup st dir = .error e := by
  intro dir
  induction dir with
  | nil =>
    intro st h
    simp at h
  | cons q qs ih =>
    intro st hmem
    rcases List.mem_cons.mp hmem with rfl | h2
    · exact ⟨err, by rw [MaskBaseDataset.setup, hp st]⟩
    · cases hq : MaskBaseDataset.processProfile st q with
      | error e => exact ⟨e, by rw [MaskBaseDataset.setup, hq]⟩
      | ok st2 =>
        obtain ⟨e, he⟩ := ih st2 h2
        exact ⟨e, by rw [MaskBaseDataset.setup, hq]; exact he⟩

/-- C8: a corpus containing a non-hidden subject directory whose gender
field lowercases to neither `"male"` nor `"female"` (and which holds at
least one recognized image file) makes dataset construction fail: that
profile raises the gender `ValueError`, and the whole scan aborts with an
error instead of assigning any default gender. -/
theorem unknown_gender_scan_fails (dir : DirListing) (name : String)
    (files : List String) (hmem : (name, files) ∈ dir)
    (hdot : startsWithDot name = false)
    (idf gender race age : String)
    (hsplit : pySplitUnderscore name = [idf, gender, race, age])
    (hmale : pyLower gender ≠ "male") (hfemale : pyLower gender ≠ "female")
    (hfile : ∃ f ∈ files, (fileNamesLookup (splitextStem f)).isSome = true) :
    MaskBaseDataset.processProfile SharedLists.empty (name, files) =
      .error (.invalidGender (pyLower gender)) ∧
    ∃ e, MaskBaseDataset.setup SharedLists.empty dir = .error e := by
  have hperr0 : MaskBaseDataset.processProfile SharedLists.empty (name, files) =
      .error (.invalidGender (pyLower gender)) := by
    rw [MaskBaseDataset.processProfile]
    simp only [hdot, Bool.false_eq_true, if_false]
    exact processFiles_gender_error name idf gender race age hsplit hmale hfemale
      files SharedLists.empty hfile
  refine ⟨hperr0, ?_⟩
  have hperr : ∀ st : SharedLists,
      MaskBaseDataset.processProfile st (name, files) =
        .error (.invalidGender (pyLower gender)) := by
    intro st
    rw [processProfile_delta st (name, files), hperr0]
    rfl
  exact setup_error_of_mem (name, files) (.invalidGender (pyLower gender)) hperr
    dir SharedLists.empty hmem

/-- Witness for C8 on the corpus consisting of the single directory
`001_nonbinary_asian_25` with one mask image inside. -/
theorem unknown_gender_scan_fails_witness :
    (("001_nonbinary_asian_25", ["mask1.jpg"]) ∈
        ([("001_nonbinary_asian_25", ["mask1.jpg"])] : DirListing)) ∧
    (MaskBaseDataset.processProfile SharedLists.empty
        ("001_nonbinary_asian_25", ["mask1.jpg"]) =
      .error (.invalidGender (pyLower "nonbinary")) ∧
    ∃ e, MaskBaseDataset.setup SharedLists.empty
        [("001_nonbinary_asian_25", ["mask1.jpg"])] = .error e) :=
  ⟨List.mem_singleton.mpr rfl,
   unknown_gender_scan_fails [("001_nonbinary_asian_25", ["mask1.jpg"])]
     "001_nonbinary_asian_25" ["mask1.jpg"] (List.mem_singleton.mpr rfl) rfl
     "001" "nonbinary" "asian" "25" (by decide) (by decide) (by decide)
     ⟨"mask1.jpg", List.mem_singleton.mpr rfl, rfl⟩⟩

/-- Extending the sample list on the right preserves every existing indexed
lookup. -/
theorem getElem?_append_some {α : Type} (l : List α) (x : α) (c : Nat) (a : α)
    (h : l[c]? = some a) : (l ++ [x])[c]? = some a := by
  have hlt : c < l.length := (List.getElem?_eq_some_iff.mp h).1
  rw [List.getElem?_append_left hlt]
  exact h

/-- One file step of the subject-disjoint scan preserves the phase
invariant. -/
theorem sbp_processFile_inv (tN vN : List String)
    (phase : MaskSplitByProfileDataset.Phase) (profile : String)
    (htrain : phase = .train → profile ∈ tN)
    (hval : phase = .val → profile ∈ vN)
    (st st2 : MaskSplitByProfileDataset.SBPState) (f : String)
    (hinv : MaskSplitByProfileDataset.SBPInv tN vN st)
    (h : MaskSplitByProfileDataset.processFile phase profile st f = .ok st2) :
    MaskSplitByProfileDataset.SBPInv tN vN st2 := by
  rw [MaskSplitByProfileDataset.processFile] at h
  cases hl : fileNamesLookup (splitextStem f) with
  | none =>
    rw [hl] at h
    cases h
    exact hinv
  | some m =>
    rw [hl] at h
    cases hp : parseProfileLabels profile with
    | error e =>
      rw [hp] at h
      cases h
    | ok ga =>
      obtain ⟨g, a⟩ := ga
      rw [hp] at h
      cases h
      obtain ⟨hcnt, htr, hvl, hcov⟩ := hinv
      refine ⟨?_, ?_, ?_, ?_⟩
      · simp [hcnt]
      · intro c hc
        cases phase with
        | train =>
          simp only [reduceIte] at hc ⊢
          rcases List.mem_append.mp hc with hold | hnew
          · obtain ⟨pr, hpr, hprmem⟩ := htr c hold
            exact ⟨pr, getElem?_append_some _ _ _ _ hpr, hprmem⟩
          · have hceq : c = st.cnt := by simpa using hnew
            subst hceq
            refine ⟨(profile, f), ?_, htrain rfl⟩
            rw [hcnt]
            exact List.getElem?_concat_length _ _
        | val =>
          simp only [reduceCtorEq, reduceIte] at hc ⊢
          obtain ⟨pr, hpr, hprmem⟩ := htr c hc
          exact ⟨pr, getElem?_append_some _ _ _ _ hpr, hprmem⟩
      · intro c hc
        cases phase with
        | train =>
          simp only [reduceCtorEq, reduceIte] at hc ⊢
          obtain ⟨pr, hpr, hprmem⟩ := hvl c hc
          exact ⟨pr, getElem?_append_some _ _ _ _ hpr, hprmem⟩
        | val =>
          simp only [reduceIte] at hc ⊢
          rcases List.mem_append.mp hc with hold | hnew
          · obtain ⟨pr, hpr, hprmem⟩ := hvl c hold
            exact ⟨pr, getElem?_append_some _ _ _ _ hpr, hprmem⟩
          · have hceq : c = st.cnt := by simpa using hnew
            subst hceq
            refine ⟨(profile, f), ?_, hval rfl⟩
            rw [hcnt]
            exact List.getElem?_concat_length _ _
      · intro c hc
        rcases Nat.lt_succ_iff_lt_or_eq.mp hc with hlt | hceq
        · rcases hcov c hlt with hin | hin
          · left
            cases phase <;> simp [List.mem_append, hin]
          · right
            cases phase <;> simp [List.mem_append, hin]
        · subst hceq
          cases phase with
          | train =>
            left
            simp
          | val =>
            right
            simp

/-- The file loop of one subject preserves the phase invariant. -/
theorem sbp_processFiles_inv (tN vN : List String)
    (phase : MaskSplitByProfileDataset.Phase) (profile : String)
    (htrain : phase = .train → profile ∈ tN)
    (hval : phase = .val → profile ∈ vN) :
    ∀ (fs : List String) (st st2 : MaskSplitByProfileDataset.SBPState),
      MaskSplitByProfileDataset.SBPInv tN vN st →
      MaskSplitByProfileDataset.processFiles phase profile st fs = .ok st2 →
      MaskSplitByProfileDataset.SBPInv tN vN st2 := by
  intro fs
  induction fs with
  | nil =>
    intro st st2 hinv h
    rw [MaskSplitByProfileDataset.processFiles] at h
    cases h
    exact hinv
  | cons f fs ih =>
    intro st st2 hinv h
    rw [MaskSplitByProfileDataset.processFiles] at h
    cases hf : MaskSplitByProfileDataset.processFile phase profile st f with
    | error e =>
      rw [hf] at h
      cases h
    | ok stm =>
      rw [hf] at h
      exact ih stm st2
        (sbp_processFile_inv tN vN phase profile htrain hval st stm f hinv hf) h

/-- The subject loop of one phase preserves the phase invariant whenever
every iterated subject index belongs to that phase's name list. -/
theorem sbp_processPhase_inv (profiles : DirListing) (tN vN : List String)
    (phase : MaskSplitByProfileDataset.Phase) :
    ∀ (idxs : List Nat) (st st2 : MaskSplitByProfileDataset.SBPState),
      (∀ i ∈ idxs,
        (phase = .train → (profiles.getD i ("", [])).1 ∈ tN) ∧
        (phase = .val → (profiles.getD i ("", [])).1 ∈ vN)) →
      MaskSplitByProfileDataset.SBPInv tN vN st →
      MaskSplitByProfileDataset.processPhase profiles phase st idxs = .ok st2 →
      MaskSplitByProfileDataset.SBPInv tN vN st2 := by
  intro idxs
  induction idxs with
  | nil =>
    intro st st2 _ hinv h
    rw [MaskSplitByProfileDataset.processPhase] at h
    cases h
    exact hinv
  | cons i idxs ih =>
    intro st st2 hidx hinv h
    rw [MaskSplitByProfileDataset.processPhase] at h
    cases hs : MaskSplitByProfileDataset.processSubject profiles phase st i with
    | error e =>
      rw [hs] at h
      cases h
    | ok stm =>
      rw [hs] at h
      have hthis := hidx i (List.mem_cons_self i idxs)
      have hstm : MaskSplitByProfileDataset.SBPInv tN vN stm := by
        rw [MaskSplitByProfileDataset.processSubject] at hs
        exact sbp_processFiles_inv tN vN phase (profiles.getD i ("", [])).1
          hthis.1 hthis.2 (profiles.getD i ("", [])).2 st stm hinv hs
      exact ih stm st2 (fun j hj => hidx j (List.mem_cons_of_mem i hj)) hstm h

/-- C2: under the subject-disjoint split policy, a successful setup never
assigns two sample indices of the same subject directory to different
phases: every sample index is recorded under exactly one of the
`"train"`/`"val"` index lists, and a train-recorded index and a val-recorded
index always point at samples of distinct subject directories, for any
iteration orders of the two subject-index sets produced by
`_split_profile`. -/
theorem no_subject_leakage (dir : DirListing) (draws : List Nat)
    (tIdxs vIdxs : List Nat) (st : MaskSplitByProfileDataset.SBPState)
    (hnd : ((MaskSplitByProfileDataset.visibleProfiles dir).map Prod.fst).Nodup)
    (ht : ∀ i ∈ tIdxs,
      i ∈ (MaskSplitByProfileDataset.splitProfile
            (MaskSplitByProfileDataset.visibleProfiles dir).length draws).1)
    (hv : ∀ j ∈ vIdxs,
      j ∈ (MaskSplitByProfileDataset.splitProfile
            (MaskSplitByProfileDataset.visibleProfiles dir).length draws).2)
    (hdr : ∀ d ∈ draws, d < (MaskSplitByProfileDataset.visibleProfiles dir).length)
    (hrun : MaskSplitByProfileDataset.setup dir tIdxs vIdxs = .ok st) :
    (∀ c, c < st.cnt → c ∈ st.trainIndices ∨ c ∈ st.valIndices) ∧
    (∀ c1 ∈ st.trainIndices, ∀ c2 ∈ st.valIndices,
      ∀ p1 p2 : String × String,
        st.image_paths[c1]? = some p1 → st.image_paths[c2]? = some p2 →
          p1.1 ≠ p2.1) := by
  classical
  set profiles := MaskSplitByProfileDataset.visibleProfiles dir with hprofiles
  set tN := MaskSplitByProfileDataset.namesAt profiles tIdxs with htN
  set vN := MaskSplitByProfileDataset.namesAt profiles vIdxs with hvN
  have hinv : MaskSplitByProfileDataset.SBPInv tN vN st := by
    rw [MaskSplitByProfileDataset.setup] at hrun
    cases h1 : MaskSplitByProfileDataset.processPhase profiles
        MaskSplitByProfileDataset.Phase.train
        MaskSplitByProfileDataset.SBPState.init tIdxs with
    | error e =>
      rw [← hprofiles, h1] at hrun
      cases hrun
    | ok st1 =>
      rw [← hprofiles, h1] at hrun
      have hinit : MaskSplitByProfileDataset.SBPInv tN vN
          MaskSplitByProfileDataset.SBPState.init := by
        refine ⟨rfl, ?_, ?_, ?_⟩
        · intro c hc
          simp [MaskSplitByProfileDataset.SBPState.init] at hc
        · intro c hc
          simp [MaskSplitByProfileDataset.SBPState.init] at hc
        · intro c hc
          simp [MaskSplitByProfileDataset.SBPState.init] at hc
      have hst1 : MaskSplitByProfileDataset.SBPInv tN vN st1 := by
        refine sbp_processPhase_inv profiles tN vN _ tIdxs _ st1 ?_ hinit h1
        intro i hi
        refine ⟨fun _ => ?_, fun hc => nomatch hc⟩
        exact List.mem_map_of_mem _ hi
      refine sbp_processPhase_inv profiles tN vN _ vIdxs st1 st ?_ hst1 hrun
      intro j hj
      refine ⟨fun hc => (nomatch hc), fun _ => ?_⟩
      exact List.mem_map_of_mem _ hj
  obtain ⟨_, htr, hvl, hcov⟩ := hinv
  refine ⟨hcov, ?_⟩
  intro c1 hc1 c2 hc2 p1 p2 hp1 hp2 heq
  obtain ⟨pr1, hpr1, hpr1mem⟩ := htr c1 hc1
  obtain ⟨pr2, hpr2, hpr2mem⟩ := hvl c2 hc2
  rw [hp1] at hpr1
  rw [hp2] at hpr2
  cases hpr1
  cases hpr2
  rw [htN, MaskSplitByProfileDataset.namesAt] at hpr1mem
  rw [hvN, MaskSplitByProfileDataset.namesAt] at hpr2mem
  obtain ⟨i, hi, hiname⟩ := List.mem_map.mp hpr1mem
  obtain ⟨j, hj, hjname⟩ := List.mem_map.mp hpr2mem
  have hiS := ht i hi
  have hjS := hv j hj
  rw [MaskSplitByProfileDataset.splitProfile] at hiS hjS
  simp only [List.mem_filter, List.mem_range, decide_eq_true_eq] at hiS
  have hilt : i < profiles.length := hiS.1
  have hinotval : i ∉ draws.dedup := hiS.2
  have hjdraws : j ∈ draws := List.mem_dedup.mp hjS
  have hjlt : j < profiles.length := hdr j hjdraws
  have hij : i = j := by
    have hmaplen_i : i < (profiles.map Prod.fst).length := by
      simpa using hilt
    have hmaplen_j : j < (profiles.map Prod.fst).length := by
      simpa using hjlt
    have hgetn : (profiles.map Prod.fst)[i] =
        (profiles.map Prod.fst)[j] := by
      rw [List.getElem_map, List.getElem_map]
      have hgi : (profiles.getD i ("", [])).1 = (profiles[i]).1 := by
        rw [List.getD_eq_getElem profiles ("", []) hilt]
      have hgj : (profiles.getD j ("", [])).1 = (profiles[j]).1 := by
        rw [List.getD_eq_getElem profiles ("", []) hjlt]
      rw [← hgi, ← hgj, hiname, hjname]
      exact heq
    exact (List.Nodup.getElem_inj_iff hnd).mp hgetn
  subst hij
  exact hinotval (List.mem_dedup.mpr hjdraws)

/-- Witness for C2 on a two-subject corpus with subject 0 in TRAIN and
subject 1 in VAL. -/
theorem no_subject_leakage_witness :
    MaskSplitByProfileDataset.setup
        [("000_male_Asian_20", ["mask1.jpg"]), ("001_female_Asian_45", ["normal.png"])]
        [0] [1] =
      .ok ⟨[("000_male_Asian_20", "mask1.jpg"), ("001_female_Asian_45", "normal.png")],
           [0, 2], [0, 1], [0, 1], [0], [1], 2⟩ ∧
    ((∀ c, c <
        (⟨[("000_male_Asian_20", "mask1.jpg"), ("001_female_Asian_45", "normal.png")],
          [0, 2], [0, 1], [0, 1], [0], [1], 2⟩ :
            MaskSplitByProfileDataset.SBPState).cnt →
        c ∈ (⟨[("000_male_Asian_20", "mask1.jpg"), ("001_female_Asian_45", "normal.png")],
          [0, 2], [0, 1], [0, 1], [0], [1], 2⟩ :
            MaskSplitByProfileDataset.SBPState).trainIndices ∨
        c ∈ (⟨[("000_male_Asian_20", "mask1.jpg"), ("001_female_Asian_45", "normal.png")],
          [0, 2], [0, 1], [0, 1], [0], [1], 2⟩ :
            MaskSplitByProfileDataset.SBPState).valIndices) ∧
      (∀ c1 ∈ (⟨[("000_male_Asian_20", "mask1.jpg"), ("001_female_Asian_45", "normal.png")],
          [0, 2], [0, 1], [0, 1], [0], [1], 2⟩ :
            MaskSplitByProfileDataset.SBPState).trainIndices,
        ∀ c2 ∈ (⟨[("000_male_Asian_20", "mask1.jpg"), ("001_female_Asian_45", "normal.png")],
          [0, 2], [0, 1], [0, 1], [0], [1], 2⟩ :
            MaskSplitByProfileDataset.SBPState).valIndices,
        ∀ p1 p2 : String × String,
          (⟨[("000_male_Asian_20", "mask1.jpg"), ("001_female_Asian_45", "normal.png")],
            [0, 2], [0, 1], [0, 1], [0], [1], 2⟩ :
              MaskSplitByProfileDataset.SBPState).image_paths[c1]? = some p1 →
          (⟨[("000_male_Asian_20", "mask1.jpg"), ("001_female_Asian_45", "normal.png")],
            [0, 2], [0, 1], [0, 1], [0], [1], 2⟩ :
              MaskSplitByProfileDataset.SBPState).image_paths[c2]? = some p2 →
            p1.1 ≠ p2.1)) :=
  ⟨rfl,
   no_subject_leakage
     [("000_male_Asian_20", ["mask1.jpg"]), ("001_female_Asian_45", ["normal.png"])]
     [1] [0] [1]
     ⟨[("000_male_Asian_20", "mask1.jpg"), ("001_female_Asian_45", "normal.png")],
      [0, 2], [0, 1], [0, 1], [0], [1], 2⟩
     (by decide) (by decide) (by decide) (by decide) rfl⟩

/-- At the failing input of the sampling scan: a recognized file whose
Bernoulli draw came out `False` is kept by the code as written, while the
spec's per-file Bernoulli scan would drop it. -/
theorem eval_setup_divergence_at_false_draw :
    EvalDataset.keptFiles [("mask1.jpg", false)] = ["mask1.jpg"] ∧
    EvalDataset.keptFilesSpec [("mask1.jpg", false)] = [] :=
  ⟨rfl, rfl⟩
